import Mathlib

/-!
Shallow embedding of FlipMouse (src/main.c): the event-translation state
machine (`handle_input_event` / `mouse_handle_event` / `mouse_toggle`), the
per-event routing performed by `run_event_loop`, and the device-discovery
logic of `devices_find_and_init` / `main`.

Modelling conventions:
* `struct input_event` is modelled by `InputEvent` with integer `type`,
  `code`, `value` fields; the timestamp fields are never consulted by the
  program logic and are omitted.
* The C `int` fields `enabled` and `drag_mode` only ever hold 0 or 1 (they
  are initialised to 0 and mutated only by `!x` or assignment of 0), so they
  are modelled as `Bool`.  `speed` is a C `int` modelled as `Int` (exact
  arithmetic).  The `static unsigned int slowdown_counter` local to
  `mouse_handle_event` is process state, so it lives in `MouseState`; its
  increment wraps modulo 2^32 as the C `unsigned int` does.
* Writes performed through `libevdev_uinput_write_event` are recorded in an
  output list of (sink, event) pairs: `Sink.device d` is the originating
  device's own uinput sink (`dev->uidev`), `Sink.mouse` is the single shared
  virtual-mouse sink (`app_state.mouse.uidev`).  `has_sink` models whether
  `dev->uidev` is non-NULL (discovery guarantees it is for every registered
  device).
-/

namespace FlipMouse

/- Event type / code constants from linux/input-event-codes.h, as used by
src/main.c. -/
def EV_SYN : Int := 0
def EV_KEY : Int := 1
def EV_REL : Int := 2
def EV_MSC : Int := 4
def SYN_REPORT : Int := 0
def MSC_SCAN : Int := 4
def REL_X : Int := 0
def REL_Y : Int := 1
def REL_WHEEL : Int := 8
def BTN_LEFT : Int := 272
def KEY_ENTER : Int := 28
def KEY_B : Int := 48
def KEY_F12 : Int := 88
def KEY_UP : Int := 103
def KEY_LEFT : Int := 105
def KEY_RIGHT : Int := 106
def KEY_DOWN : Int := 108
def KEY_VOLUMEDOWN : Int := 114
def KEY_VOLUMEUP : Int := 115
def KEY_HELP : Int := 138
def KEY_MENU : Int := 139
def KEY_SEND : Int := 231

/- Constants defined in src/main.c. -/
def MIN_MOUSE_SPEED : Int := 1
def WHEEL_SLOWDOWN_FACTOR : Nat := 5
def KEY_CLAMSHELL : Int := 252

/- The event_action_t return codes of src/main.c. -/
def CHANGED_TO_MOUSE : Int := -2
def MUTE_EVENT : Int := 0
def PASS_THRU_EVENT : Int := 1
def CHANGED_EVENT : Int := 2

/-- The spec's `Action` view of a result code, as decoded by
`run_event_loop`: positive codes are forwarded to the originating device's
own sink (`PassThrough`), negative codes to the mouse sink (`RouteToMouse`),
zero is dropped (`Mute`). -/
inductive Action where
  | mute
  | passThrough
  | routeToMouse
deriving DecidableEq, Repr

def action_of (r : Int) : Action :=
  if r > 0 then Action.passThrough
  else if r < 0 then Action.routeToMouse
  else Action.mute

/-- `struct input_event` (timestamp omitted: never consulted). -/
structure InputEvent where
  type : Int
  code : Int
  value : Int
deriving DecidableEq, Repr

/-- The EV_SYN SYN_REPORT frame-terminator record. -/
def synReport : InputEvent := ⟨EV_SYN, SYN_REPORT, 0⟩

/-- `keymap_t` of src/main.c. -/
structure keymap_t where
  scancode : Int
  keycode : Int
deriving DecidableEq, Repr

def keypad_keymap : List keymap_t :=
  [⟨35, KEY_UP⟩, ⟨9, KEY_DOWN⟩, ⟨19, KEY_LEFT⟩, ⟨34, KEY_RIGHT⟩,
   ⟨33, KEY_MENU⟩, ⟨2, KEY_SEND⟩]

def laptop_keymap : List keymap_t :=
  [⟨200, KEY_UP⟩, ⟨208, KEY_DOWN⟩, ⟨203, KEY_LEFT⟩, ⟨205, KEY_RIGHT⟩,
   ⟨17, KEY_MENU⟩, ⟨31, KEY_SEND⟩]

/-- `keymap_get_scanvalue`: first entry whose keycode matches; -1 if none. -/
def keymap_get_scanvalue (km : List keymap_t) (keycode : Int) : Int :=
  match km with
  | [] => -1
  | e :: rest => if e.keycode = keycode then e.scancode
                 else keymap_get_scanvalue rest keycode

/-- `keymap_get_keycode`: first entry whose scancode matches; -1 if none. -/
def keymap_get_keycode (km : List keymap_t) (scanvalue : Int) : Int :=
  match km with
  | [] => -1
  | e :: rest => if e.scancode = scanvalue then e.keycode
                 else keymap_get_keycode rest scanvalue

/-- The mutable translator state: the `mouse_t` fields mutated by the
translator plus the `static unsigned int slowdown_counter` of
`mouse_handle_event`. -/
structure MouseState where
  enabled : Bool
  speed : Int
  drag_mode : Bool
  slowdown_counter : Nat
deriving DecidableEq, Repr

/-- The state set up by `mouse_init`. -/
def initMouseState : MouseState := ⟨false, 4, false, 0⟩

/-- An output sink: a registered device's own uinput sink, or the shared
virtual-mouse sink. -/
inductive Sink where
  | device (id : Nat)
  | mouse
deriving DecidableEq, Repr

/-- `mouse_toggle` of src/main.c: flip `enabled`, return CHANGED_TO_MOUSE. -/
def mouse_toggle (s : MouseState) : Int × MouseState :=
  (CHANGED_TO_MOUSE, {s with enabled := !s.enabled})

/-- The `switch (keycode)` body of `mouse_handle_event` (src/main.c lines
340-447).  Returns (result code, new state, possibly rewritten event, writes
performed directly by the handler). -/
def mouse_switch (d : Nat) (has_sink : Bool) (s : MouseState) (ev : InputEvent)
    (keycode : Int) : Int × MouseState × InputEvent × List (Sink × InputEvent) :=
  if keycode = KEY_VOLUMEUP then
    if ev.value = 1 then (MUTE_EVENT, {s with speed := s.speed + 1}, ev, [])
    else (MUTE_EVENT, s, ev, [])
  else if keycode = KEY_VOLUMEDOWN then
    if ev.value = 1 then
      (MUTE_EVENT,
       {s with speed := if s.speed - 1 < MIN_MOUSE_SPEED then MIN_MOUSE_SPEED
                        else s.speed - 1},
       ev, [])
    else (MUTE_EVENT, s, ev, [])
  else if keycode = KEY_ENTER then
    (CHANGED_TO_MOUSE, s, {ev with type := EV_KEY, code := BTN_LEFT}, [])
  else if keycode = KEY_B then
    if ev.value = 1 then
      (CHANGED_TO_MOUSE, {s with drag_mode := !s.drag_mode},
       ⟨EV_KEY, BTN_LEFT, if !s.drag_mode then 1 else 0⟩, [])
    else (PASS_THRU_EVENT, s, ev, [])
  else if keycode = KEY_UP then
    (CHANGED_TO_MOUSE, s, {ev with type := EV_REL, code := REL_Y, value := -s.speed}, [])
  else if keycode = KEY_DOWN then
    (CHANGED_TO_MOUSE, s, {ev with type := EV_REL, code := REL_Y, value := s.speed}, [])
  else if keycode = KEY_LEFT then
    (CHANGED_TO_MOUSE, s, {ev with type := EV_REL, code := REL_X, value := -s.speed}, [])
  else if keycode = KEY_RIGHT then
    (CHANGED_TO_MOUSE, s, {ev with type := EV_REL, code := REL_X, value := s.speed}, [])
  else if keycode = KEY_MENU then
    let s2 := {s with slowdown_counter := (s.slowdown_counter + 1) % 4294967296}
    if s.slowdown_counter % WHEEL_SLOWDOWN_FACTOR ≠ 0 then (MUTE_EVENT, s2, ev, [])
    else (CHANGED_TO_MOUSE, s2, {ev with type := EV_REL, code := REL_WHEEL, value := 1}, [])
  else if keycode = KEY_SEND then
    let s2 := {s with slowdown_counter := (s.slowdown_counter + 1) % 4294967296}
    if s.slowdown_counter % WHEEL_SLOWDOWN_FACTOR ≠ 0 then (MUTE_EVENT, s2, ev, [])
    else (CHANGED_TO_MOUSE, s2, {ev with type := EV_REL, code := REL_WHEEL, value := -1}, [])
  else if keycode = KEY_CLAMSHELL then
    if ev.value = 1 then
      (PASS_THRU_EVENT,
       (if s.enabled then {s with enabled := false} else s),
       ev,
       if has_sink then
         [(Sink.device d, ⟨EV_KEY, KEY_CLAMSHELL, 1⟩), (Sink.device d, synReport)]
       else [])
    else (PASS_THRU_EVENT, s, ev, [])
  else (PASS_THRU_EVENT, s, ev, [])

/-- `mouse_handle_event` of src/main.c: normalise EV_MSC/MSC_SCAN through the
keymap, unconditionally mute EV_KEY echoes whose code is a keymap keycode,
then dispatch on the resolved keycode. -/
def mouse_handle_event (km : List keymap_t) (d : Nat) (has_sink : Bool)
    (s : MouseState) (ev : InputEvent) :
    Int × MouseState × InputEvent × List (Sink × InputEvent) :=
  if ev.type = EV_MSC then
    mouse_switch d has_sink s ev
      (if ev.code = MSC_SCAN then keymap_get_keycode km ev.value else ev.code)
  else if ev.type = EV_KEY ∧ keymap_get_scanvalue km ev.code ≠ -1 then
    (MUTE_EVENT, s, ev, [])
  else
    mouse_switch d has_sink s ev ev.code

/-- `handle_input_event` of src/main.c: toggle-key handling first, then the
enabled gate, then `mouse_handle_event`. -/
def handle_input_event (km : List keymap_t) (d : Nat) (has_sink : Bool)
    (s : MouseState) (ev : InputEvent) :
    Int × MouseState × InputEvent × List (Sink × InputEvent) :=
  if ev.type = EV_KEY ∧ (ev.code = KEY_HELP ∨ ev.code = KEY_F12) then
    if ev.value = 1 then
      ((mouse_toggle s).1, (mouse_toggle s).2, ev, [])
    else (CHANGED_TO_MOUSE, s, ev, [])
  else if s.enabled = false then (PASS_THRU_EVENT, s, ev, [])
  else mouse_handle_event km d has_sink s ev

/-- The routing step of `run_event_loop` (src/main.c lines 704-724): a
positive result is written (event then SYN_REPORT) to the originating
device's own sink, a negative result to the mouse sink, zero writes
nothing. -/
def route_event (d : Nat) (event_result : Int) (ev : InputEvent) :
    List (Sink × InputEvent) :=
  if event_result > 0 then [(Sink.device d, ev), (Sink.device d, synReport)]
  else if event_result < 0 then [(Sink.mouse, ev), (Sink.mouse, synReport)]
  else []

/-- One full pass of the event loop body for one event read from device `d`:
translate, then route.  Returns (new state, result code, all writes in
program order: handler-internal writes first, then the router's). -/
def process_event (km : List keymap_t) (d : Nat) (has_sink : Bool)
    (s : MouseState) (ev : InputEvent) :
    MouseState × Int × List (Sink × InputEvent) :=
  let out := handle_input_event km d has_sink s ev
  (out.2.1, out.1, out.2.2.2 ++ route_event d out.1 out.2.2.1)

/-- Process a list of events sequentially from device `d`; returns the final
state and, per event, its (result code, writes). -/
def process_events (km : List keymap_t) (d : Nat) (has_sink : Bool)
    (s : MouseState) : List InputEvent → MouseState × List (Int × List (Sink × InputEvent))
  | [] => (s, [])
  | ev :: rest =>
    let out := process_event km d has_sink s ev
    let tail := process_events km d has_sink out.1 rest
    (tail.1, (out.2.1, out.2.2) :: tail.2)

/- --- Device discovery (devices_find_and_init / main) --- -/

def supported_devices : List String :=
  ["mtk-kpd", "matrix-keypad", "gpio_keys", "AT Translated Set 2 keyboard"]

/-- One directory entry of /dev/input as seen by `devices_find_and_init`,
with the outcomes of the external calls made for it: whether it is a
character device, whether `open` succeeds, whether `libevdev_new_from_fd`
succeeds, the device name reported by libevdev, and whether `malloc` /
`libevdev_uinput_create_from_device` succeed. -/
structure Candidate where
  is_chr : Bool
  open_ok : Bool
  evdev_ok : Bool
  name : String
  malloc_ok : Bool
  uinput_ok : Bool
deriving DecidableEq, Repr

/-- A candidate ends up registered iff every step for it succeeds and its
name is on the supported-device allow-list (grab failure is only a warning
and does not affect registration). -/
def candidate_registered (c : Candidate) : Bool :=
  c.is_chr && c.open_ok && c.evdev_ok && supported_devices.contains c.name &&
    c.malloc_ok && c.uinput_ok

/-- The body of the readdir loop of `devices_find_and_init`: a failing
candidate leaves the accumulator unchanged (`continue`); a registered one is
appended to the device list and sets `result` to 0. -/
def devices_step (acc : Int × List Candidate) (c : Candidate) :
    Int × List Candidate :=
  if candidate_registered c then (0, acc.2 ++ [c]) else acc

/-- `devices_find_and_init`: `result` starts at -1; if `opendir` fails the
function returns -1 with no device registered, otherwise every directory
entry is processed in order. -/
def devices_find_and_init (dir_ok : Bool) (cands : List Candidate) :
    Int × List Candidate :=
  if dir_ok then cands.foldl devices_step (-1, []) else (-1, [])

/-- The startup path of `main`: if `devices_find_and_init` does not return 0
the process exits with status 1 before `mouse_init` is ever called.  Result:
(exit code, whether `mouse_init` was called).  `mouse_init_ok` models whether
creation of the synthetic mouse device succeeds when attempted. -/
def main_startup (dir_ok : Bool) (cands : List Candidate)
    (mouse_init_ok : Bool) : Int × Bool :=
  if (devices_find_and_init dir_ok cands).1 ≠ 0 then (1, false)
  else if mouse_init_ok then (0, true)
  else (1, true)

/- --- Distinguished concrete values used by the theorems --- -/

/-- The state set up by `mouse_init` with mouse mode toggled on once
(enabled, speed 4, drag off, scroll counter 0). -/
def enabledInitState : MouseState := ⟨true, 4, false, 0⟩

/-- A scroll-up classified event on the keypad keymap: EV_MSC/MSC_SCAN
carrying scancode 33, which the keymap maps to KEY_MENU. -/
def scrollUpEv : InputEvent := ⟨EV_MSC, MSC_SCAN, 33⟩

/-- A scroll-down classified event on the keypad keymap: EV_MSC/MSC_SCAN
carrying scancode 2, which the keymap maps to KEY_SEND. -/
def scrollDownEv : InputEvent := ⟨EV_MSC, MSC_SCAN, 2⟩

/-- Shape of a translator output as the router sees it: either the handler
performed no write of its own (and a positive result forwards the unmodified
event), or it is the CLAMSHELL press path: result PASS_THRU_EVENT, event
unmodified, and exactly the key-down/SYN_REPORT injection pair on the
originating sink. -/
def RouterShape (d : Nat) (ev : InputEvent)
    (out : Int × MouseState × InputEvent × List (Sink × InputEvent)) : Prop :=
  (out.2.2.2 = [] ∧ (0 < out.1 → out.2.2.1 = ev))
  ∨ (out.1 = PASS_THRU_EVENT ∧ out.2.2.1 = ev
     ∧ out.2.2.2 = [(Sink.device d, ⟨EV_KEY, KEY_CLAMSHELL, 1⟩), (Sink.device d, synReport)])

/- ----------------------------------------------------------------------
Helper lemmas shared by the claim theorems below.
---------------------------------------------------------------------- -/

/-- A volume-up key event while enabled: speed increments on press only,
result is always MUTE_EVENT with no writes. -/
theorem volup_step (s : MouseState) (v : Int) (hen : s.enabled = true) :
    process_event keypad_keymap 0 true s ⟨EV_KEY, KEY_VOLUMEUP, v⟩
      = ((if v = 1 then {s with speed := s.speed + 1} else s), MUTE_EVENT, []) := by
  by_cases hv : v = 1 <;>
    simp [process_event, handle_input_event, mouse_handle_event, mouse_switch,
      route_event, keymap_get_scanvalue, keypad_keymap, hen, hv,
      EV_KEY, EV_MSC, KEY_VOLUMEUP, KEY_VOLUMEDOWN, KEY_HELP, KEY_F12,
      KEY_UP, KEY_DOWN, KEY_LEFT, KEY_RIGHT, KEY_MENU, KEY_SEND, KEY_ENTER, KEY_B,
      MUTE_EVENT]

/-- A volume-down key event while enabled: speed decrements and clamps on
press only, result is always MUTE_EVENT with no writes. -/
theorem voldown_step (s : MouseState) (v : Int) (hen : s.enabled = true) :
    process_event keypad_keymap 0 true s ⟨EV_KEY, KEY_VOLUMEDOWN, v⟩
      = ((if v = 1 then
            {s with speed := if s.speed - 1 < MIN_MOUSE_SPEED then MIN_MOUSE_SPEED
                             else s.speed - 1}
          else s), MUTE_EVENT, []) := by
  by_cases hv : v = 1 <;>
    simp [process_event, handle_input_event, mouse_handle_event, mouse_switch,
      route_event, keymap_get_scanvalue, keypad_keymap, hen, hv,
      EV_KEY, EV_MSC, KEY_VOLUMEUP, KEY_VOLUMEDOWN, KEY_HELP, KEY_F12,
      KEY_UP, KEY_DOWN, KEY_LEFT, KEY_RIGHT, KEY_MENU, KEY_SEND, KEY_ENTER, KEY_B,
      MUTE_EVENT]

/-- Every branch of the keycode switch satisfies `RouterShape`. -/
theorem mouse_switch_shape (d : Nat) (snk : Bool) (s : MouseState) (ev : InputEvent)
    (kc : Int) : RouterShape d ev (mouse_switch d snk s ev kc) := by
  unfold RouterShape mouse_switch
  by_cases h1 : kc = KEY_VOLUMEUP
  · rw [if_pos h1]
    split <;> simp [CHANGED_TO_MOUSE, MUTE_EVENT, PASS_THRU_EVENT]
  rw [if_neg h1]
  by_cases h2 : kc = KEY_VOLUMEDOWN
  · rw [if_pos h2]
    split <;> simp [CHANGED_TO_MOUSE, MUTE_EVENT, PASS_THRU_EVENT]
  rw [if_neg h2]
  by_cases h3 : kc = KEY_ENTER
  · rw [if_pos h3]
    simp [CHANGED_TO_MOUSE, MUTE_EVENT, PASS_THRU_EVENT]
  rw [if_neg h3]
  by_cases h4 : kc = KEY_B
  · rw [if_pos h4]
    split <;> simp [CHANGED_TO_MOUSE, MUTE_EVENT, PASS_THRU_EVENT]
  rw [if_neg h4]
  by_cases h5 : kc = KEY_UP
  · rw [if_pos h5]
    simp [CHANGED_TO_MOUSE, MUTE_EVENT, PASS_THRU_EVENT]
  rw [if_neg h5]
  by_cases h6 : kc = KEY_DOWN
  · rw [if_pos h6]
    simp [CHANGED_TO_MOUSE, MUTE_EVENT, PASS_THRU_EVENT]
  rw [if_neg h6]
  by_cases h7 : kc = KEY_LEFT
  · rw [if_pos h7]
    simp [CHANGED_TO_MOUSE, MUTE_EVENT, PASS_THRU_EVENT]
  rw [if_neg h7]
  by_cases h8 : kc = KEY_RIGHT
  · rw [if_pos h8]
    simp [CHANGED_TO_MOUSE, MUTE_EVENT, PASS_THRU_EVENT]
  rw [if_neg h8]
  by_cases h9 : kc = KEY_MENU
  · rw [if_pos h9]
    split <;> simp [CHANGED_TO_MOUSE, MUTE_EVENT, PASS_THRU_EVENT]
  rw [if_neg h9]
  by_cases h10 : kc = KEY_SEND
  · rw [if_pos h10]
    split <;> simp [CHANGED_TO_MOUSE, MUTE_EVENT, PASS_THRU_EVENT]
  rw [if_neg h10]
  by_cases h11 : kc = KEY_CLAMSHELL
  · rw [if_pos h11]
    by_cases hv : ev.value = 1
    · rw [if_pos hv]
      by_cases hsk : snk = true
      · subst hsk
        simp [PASS_THRU_EVENT]
      · have hsk2 : snk = false := by
          cases snk
          · rfl
          · exact absurd rfl hsk
        subst hsk2
        simp [PASS_THRU_EVENT]
    · rw [if_neg hv]
      simp [PASS_THRU_EVENT]
  rw [if_neg h11]
  simp [PASS_THRU_EVENT]

/-- The MSC_SCAN normalisation and the echo-mute filter preserve
`RouterShape`. -/
theorem mouse_handle_shape (km : List keymap_t) (d : Nat) (snk : Bool)
    (s : MouseState) (ev : InputEvent) :
    RouterShape d ev (mouse_handle_event km d snk s ev) := by
  unfold mouse_handle_event
  by_cases h1 : ev.type = EV_MSC
  · rw [if_pos h1]
    exact mouse_switch_shape d snk s ev _
  rw [if_neg h1]
  by_cases h2 : ev.type = EV_KEY ∧ keymap_get_scanvalue km ev.code ≠ -1
  · rw [if_pos h2]
    unfold RouterShape
    simp
  · rw [if_neg h2]
    exact mouse_switch_shape d snk s ev ev.code

/-- Every output of `handle_input_event` satisfies `RouterShape`. -/
theorem handler_shape (km : List keymap_t) (d : Nat) (snk : Bool)
    (s : MouseState) (ev : InputEvent) :
    RouterShape d ev (handle_input_event km d snk s ev) := by
  unfold handle_input_event
  by_cases h1 : ev.type = EV_KEY ∧ (ev.code = KEY_HELP ∨ ev.code = KEY_F12)
  · rw [if_pos h1]
    unfold RouterShape
    split <;> simp [mouse_toggle, CHANGED_TO_MOUSE]
  rw [if_neg h1]
  by_cases h2 : s.enabled = false
  · rw [if_pos h2]
    unfold RouterShape
    simp [PASS_THRU_EVENT]
  · rw [if_neg h2]
    exact mouse_handle_shape km d snk s ev

/-- The result code of a full event-loop pass is the handler result. -/
theorem process_event_result (km : List keymap_t) (d : Nat) (snk : Bool)
    (s : MouseState) (ev : InputEvent) :
    (process_event km d snk s ev).2.1 = (handle_input_event km d snk s ev).1 := rfl

/-- The writes of a full event-loop pass are the handler-internal writes
followed by the router writes. -/
theorem process_event_writes (km : List keymap_t) (d : Nat) (snk : Bool)
    (s : MouseState) (ev : InputEvent) :
    (process_event km d snk s ev).2.2
      = (handle_input_event km d snk s ev).2.2.2
        ++ route_event d (handle_input_event km d snk s ev).1
             (handle_input_event km d snk s ev).2.2.1 := rfl

/-- Characterisation of the discovery fold: the result is 0 iff some
candidate registers, and the registered devices are precisely the
successful candidates in order. -/
theorem devices_foldl_spec (cands : List Candidate) (r : Int) (ds : List Candidate) :
    cands.foldl devices_step (r, ds)
      = ((if cands.any candidate_registered then 0 else r),
         ds ++ cands.filter candidate_registered) := by
  induction cands generalizing r ds with
  | nil => simp
  | cons c rest ih =>
    by_cases hc : candidate_registered c <;>
      simp [devices_step, hc, ih, List.filter_cons]

/- ----------------------------------------------------------------------
Claim theorems.
---------------------------------------------------------------------- -/

/-- Claim C1, counterexample.  The claim states that a release (value 0) of
the toggle key is muted and no event is ever forwarded to any output sink
for it.  In the code `handle_input_event` returns CHANGED_TO_MOUSE for
toggle-key releases and autorepeats (and `mouse_toggle` returns
CHANGED_TO_MOUSE for presses), so the event loop forwards the raw toggle-key
event plus a SYN_REPORT to the mouse sink: at the concrete enabled state, a
KEY_HELP release produces two writes on the mouse sink, not zero. -/
theorem C1_counterexample_release_forwarded :
    (process_event keypad_keymap 0 true enabledInitState ⟨EV_KEY, KEY_HELP, 0⟩).2.2
      = [(Sink.mouse, ⟨EV_KEY, KEY_HELP, 0⟩), (Sink.mouse, synReport)]
    ∧ (process_event keypad_keymap 0 true enabledInitState ⟨EV_KEY, KEY_HELP, 0⟩).2.2 ≠ [] := by
  decide

/-- Claim C1, amended.  A press (value 1) of either toggle key (KEY_HELP or
KEY_F12) flips the enabled flag and a release or autorepeat leaves the state
unchanged; but in every case the result is CHANGED_TO_MOUSE, so the raw
toggle-key event is forwarded (with a SYN_REPORT) to the mouse sink rather
than muted. -/
theorem C1_toggle_key_routed_to_mouse (km : List keymap_t) (d : Nat) (snk : Bool)
    (s : MouseState) (c v : Int) (hc : c = KEY_HELP ∨ c = KEY_F12) :
    process_event km d snk s ⟨EV_KEY, c, v⟩
      = ((if v = 1 then {s with enabled := !s.enabled} else s), CHANGED_TO_MOUSE,
         [(Sink.mouse, ⟨EV_KEY, c, v⟩), (Sink.mouse, synReport)]) := by
  rcases hc with rfl | rfl <;> by_cases hv : v = 1 <;>
    simp [process_event, handle_input_event, mouse_toggle, route_event,
      CHANGED_TO_MOUSE, EV_KEY, KEY_HELP, KEY_F12, hv]

/-- Claim C1, witness for the amended theorem: a KEY_F12 autorepeat
(value 2) at the concrete enabled state. -/
theorem C1_toggle_key_routed_to_mouse_witness :
    process_event keypad_keymap 0 true enabledInitState ⟨EV_KEY, KEY_F12, 2⟩
      = ((if (2 : Int) = 1 then {enabledInitState with enabled := !enabledInitState.enabled}
          else enabledInitState),
         CHANGED_TO_MOUSE, [(Sink.mouse, ⟨EV_KEY, KEY_F12, 2⟩), (Sink.mouse, synReport)]) :=
  C1_toggle_key_routed_to_mouse keypad_keymap 0 true enabledInitState KEY_F12 2 (Or.inr rfl)

/-- Claim C2, counterexample.  The claim states that with the counter at its
initial value a run of 5 scroll-up events produces its single wheel emission
on the 5th event.  The code tests `slowdown_counter++ % 5` (the
pre-increment value), so from counter 0 the emission happens on the 1st
event of the run and the 5th event is muted: the result sequence is
[CHANGED_TO_MOUSE, MUTE, MUTE, MUTE, MUTE], not [MUTE, MUTE, MUTE, MUTE,
CHANGED_TO_MOUSE]. -/
theorem C2_counterexample_first_not_fifth :
    ((process_events keypad_keymap 0 true enabledInitState
        (List.replicate 5 scrollUpEv)).2.map Prod.fst)
      = [CHANGED_TO_MOUSE, MUTE_EVENT, MUTE_EVENT, MUTE_EVENT, MUTE_EVENT]
    ∧ ((process_events keypad_keymap 0 true enabledInitState
        (List.replicate 5 scrollUpEv)).2.map Prod.fst)
      ≠ [MUTE_EVENT, MUTE_EVENT, MUTE_EVENT, MUTE_EVENT, CHANGED_TO_MOUSE] := by
  decide

/-- Claim C2, amended.  With the shared counter at its initial value 0, any
run of 5 scroll-classified events (each scroll-up or scroll-down, in any
interleaving) while enabled produces exactly one RouteToMouse wheel action,
of magnitude +1 for scroll-up or -1 for scroll-down — on the 1st event of
the run (the event whose pre-increment counter is a multiple of 5), taking
the direction of that event; the remaining four events are Mute with no
writes. -/
theorem C2_scroll_throttle_amended (e1 e2 e3 e4 e5 : InputEvent)
    (h1 : e1 = scrollUpEv ∨ e1 = scrollDownEv)
    (h2 : e2 = scrollUpEv ∨ e2 = scrollDownEv)
    (h3 : e3 = scrollUpEv ∨ e3 = scrollDownEv)
    (h4 : e4 = scrollUpEv ∨ e4 = scrollDownEv)
    (h5 : e5 = scrollUpEv ∨ e5 = scrollDownEv) :
    ((process_events keypad_keymap 0 true enabledInitState [e1, e2, e3, e4, e5]).2.map Prod.fst
      = [CHANGED_TO_MOUSE, MUTE_EVENT, MUTE_EVENT, MUTE_EVENT, MUTE_EVENT])
    ∧ ((process_events keypad_keymap 0 true enabledInitState [e1, e2, e3, e4, e5]).2.map Prod.snd
      = [[(Sink.mouse, ⟨EV_REL, REL_WHEEL, if e1 = scrollUpEv then 1 else -1⟩),
          (Sink.mouse, synReport)], [], [], [], []]) := by
  rcases h1 with rfl | rfl <;> rcases h2 with rfl | rfl <;> rcases h3 with rfl | rfl <;>
    rcases h4 with rfl | rfl <;> rcases h5 with rfl | rfl <;> decide

/-- Claim C2, witness for the amended theorem: 3 scroll-ups then 2
scroll-downs — the single emission is a +1 wheel on the first up. -/
theorem C2_scroll_throttle_amended_witness :
    ((process_events keypad_keymap 0 true enabledInitState
        [scrollUpEv, scrollUpEv, scrollUpEv, scrollDownEv, scrollDownEv]).2.map Prod.fst
      = [CHANGED_TO_MOUSE, MUTE_EVENT, MUTE_EVENT, MUTE_EVENT, MUTE_EVENT])
    ∧ ((process_events keypad_keymap 0 true enabledInitState
        [scrollUpEv, scrollUpEv, scrollUpEv, scrollDownEv, scrollDownEv]).2.map Prod.snd
      = [[(Sink.mouse, ⟨EV_REL, REL_WHEEL, if scrollUpEv = scrollUpEv then 1 else -1⟩),
          (Sink.mouse, synReport)], [], [], [], []]) :=
  C2_scroll_throttle_amended scrollUpEv scrollUpEv scrollUpEv scrollDownEv scrollDownEv
    (Or.inl rfl) (Or.inl rfl) (Or.inl rfl) (Or.inr rfl) (Or.inr rfl)

/-- Claim C3, counterexample.  The claim states that for every CLAMSHELL
press, regardless of whether mouse mode is enabled or disabled, the raw key
event is resynthesized exactly once onto the originating sink.  While
disabled, `mouse_handle_event` is never reached, so no resynthesis happens
at all (the handler-internal write list is empty and the event merely takes
the ordinary passthrough route); while enabled, the resynthesized key-down
record reaches the originating sink twice (once injected by the handler,
once by the router because the result is PASS_THRU_EVENT). -/
theorem C3_counterexample_modes :
    ((handle_input_event keypad_keymap 0 true initMouseState ⟨EV_KEY, KEY_CLAMSHELL, 1⟩).2.2.2 = [])
    ∧ ((process_event keypad_keymap 0 true initMouseState ⟨EV_KEY, KEY_CLAMSHELL, 1⟩).2.2
        = [(Sink.device 0, ⟨EV_KEY, KEY_CLAMSHELL, 1⟩), (Sink.device 0, synReport)])
    ∧ ((process_event keypad_keymap 0 true enabledInitState ⟨EV_KEY, KEY_CLAMSHELL, 1⟩).2.2.count
        (Sink.device 0, ⟨EV_KEY, KEY_CLAMSHELL, 1⟩) = 2) := by
  decide

/-- Claim C3, amended.  Only while mouse mode is enabled: a CLAMSHELL press
forces enabled to false, the handler resynthesizes the raw key-down (plus
SYN_REPORT) exactly once onto the originating sink — never the mouse sink —
and the result is PASS_THRU_EVENT, whereupon the router writes the raw event
to the same sink a second time.  (While disabled the translator is not
consulted and the event merely passes through.) -/
theorem C3_clamshell_press_enabled (km : List keymap_t) (d : Nat) (s : MouseState)
    (hen : s.enabled = true) (hkm : keymap_get_scanvalue km KEY_CLAMSHELL = -1) :
    process_event km d true s ⟨EV_KEY, KEY_CLAMSHELL, 1⟩
      = ({s with enabled := false}, PASS_THRU_EVENT,
         [(Sink.device d, ⟨EV_KEY, KEY_CLAMSHELL, 1⟩), (Sink.device d, synReport),
          (Sink.device d, ⟨EV_KEY, KEY_CLAMSHELL, 1⟩), (Sink.device d, synReport)]) := by
  simp only [KEY_CLAMSHELL] at hkm
  simp [process_event, handle_input_event, mouse_handle_event, mouse_switch, route_event,
    hen, hkm, EV_KEY, EV_MSC, KEY_HELP, KEY_F12, KEY_CLAMSHELL, KEY_VOLUMEUP, KEY_VOLUMEDOWN,
    KEY_ENTER, KEY_B, KEY_UP, KEY_DOWN, KEY_LEFT, KEY_RIGHT, KEY_MENU, KEY_SEND,
    PASS_THRU_EVENT]

/-- Claim C3, witness for the amended theorem: a CLAMSHELL press at the
concrete enabled state on device 7 with the keypad keymap. -/
theorem C3_clamshell_press_enabled_witness :
    process_event keypad_keymap 7 true enabledInitState ⟨EV_KEY, KEY_CLAMSHELL, 1⟩
      = ({enabledInitState with enabled := false}, PASS_THRU_EVENT,
         [(Sink.device 7, ⟨EV_KEY, KEY_CLAMSHELL, 1⟩), (Sink.device 7, synReport),
          (Sink.device 7, ⟨EV_KEY, KEY_CLAMSHELL, 1⟩), (Sink.device 7, synReport)]) :=
  C3_clamshell_press_enabled keypad_keymap 7 enabledInitState rfl (by decide)

/-- Claim C4 (confirmed).  For every sequence of volume-down press events
applied while enabled to a state with speed at least MIN_MOUSE_SPEED (the
initial speed is 4), the final speed is never below MIN_MOUSE_SPEED = 1,
and every event of the sequence returns MUTE_EVENT with no writes. -/
theorem C4_speed_floor (s : MouseState) (evs : List InputEvent)
    (hen : s.enabled = true) (hsp : MIN_MOUSE_SPEED ≤ s.speed)
    (hevs : ∀ e ∈ evs, e = ⟨EV_KEY, KEY_VOLUMEDOWN, 1⟩) :
    MIN_MOUSE_SPEED ≤ (process_events keypad_keymap 0 true s evs).1.speed
    ∧ ∀ p ∈ (process_events keypad_keymap 0 true s evs).2,
        p.1 = MUTE_EVENT ∧ p.2 = [] := by
  induction evs generalizing s with
  | nil => exact ⟨hsp, by simp [process_events]⟩
  | cons e rest ih =>
    have he : e = ⟨EV_KEY, KEY_VOLUMEDOWN, 1⟩ := hevs e (by simp)
    subst he
    have hstep : process_event keypad_keymap 0 true s ⟨EV_KEY, KEY_VOLUMEDOWN, 1⟩
        = ({s with speed := if s.speed - 1 < MIN_MOUSE_SPEED then MIN_MOUSE_SPEED
                            else s.speed - 1}, MUTE_EVENT, []) := by
      simpa using voldown_step s 1 hen
    have hfloor : MIN_MOUSE_SPEED ≤
        (if s.speed - 1 < MIN_MOUSE_SPEED then MIN_MOUSE_SPEED else s.speed - 1) := by
      split
      · exact le_refl _
      · omega
    obtain ⟨ha, hb⟩ := ih
      {s with speed := if s.speed - 1 < MIN_MOUSE_SPEED then MIN_MOUSE_SPEED else s.speed - 1}
      (by simpa using hen) hfloor
      (fun x hx => hevs x (List.mem_cons_of_mem _ hx))
    refine ⟨?_, ?_⟩
    · simpa [process_events, hstep] using ha
    · simp only [process_events, hstep]
      intro p hp
      rcases List.mem_cons.mp hp with rfl | hp2
      · exact ⟨rfl, rfl⟩
      · exact hb p hp2

/-- Claim C4, witness: six volume-down presses from the initial speed 4 —
the floor holds (final speed is MIN_MOUSE_SPEED). -/
theorem C4_speed_floor_witness :
    MIN_MOUSE_SPEED ≤ (process_events keypad_keymap 0 true enabledInitState
        (List.replicate 6 ⟨EV_KEY, KEY_VOLUMEDOWN, 1⟩)).1.speed
    ∧ ∀ p ∈ (process_events keypad_keymap 0 true enabledInitState
        (List.replicate 6 ⟨EV_KEY, KEY_VOLUMEDOWN, 1⟩)).2,
        p.1 = MUTE_EVENT ∧ p.2 = [] :=
  C4_speed_floor enabledInitState (List.replicate 6 ⟨EV_KEY, KEY_VOLUMEDOWN, 1⟩)
    rfl (by decide) (by decide)

/-- Claim C5, counterexample.  The claim states that the scan form followed
by the raw-keycode echo of the same press yields exactly one non-Mute
action.  For the scroll keys the scan form is itself subject to the shared
throttle: at an enabled state whose counter is 1 (reached after a single
earlier scroll event), the scan event for scroll-up is muted by the
throttle and the echo is muted unconditionally — zero non-Mute actions, not
exactly one. -/
theorem C5_counterexample_throttled_pair :
    ((process_events keypad_keymap 0 true ⟨true, 4, false, 1⟩
        [⟨EV_MSC, MSC_SCAN, 33⟩, ⟨EV_KEY, KEY_MENU, 1⟩]).2.map Prod.fst
      = [MUTE_EVENT, MUTE_EVENT])
    ∧ ((process_events keypad_keymap 0 true ⟨true, 4, false, 1⟩
        [⟨EV_MSC, MSC_SCAN, 33⟩, ⟨EV_KEY, KEY_MENU, 1⟩]).2.map
          (fun p => action_of p.1)
      = [Action.mute, Action.mute]) := by
  decide

/-- Claim C5, amended.  While enabled, for every entry of the keypad keymap,
feeding the scan form then the paired raw-keycode form of the same press
yields at most one non-Mute action, never two: the raw-keycode echo is
always muted, the scan form is never PassThrough, and for the four
direction keys the scan form is exactly the one non-Mute (RouteToMouse)
action.  (For the scroll entries the scan form may additionally be muted by
the shared throttle counter, yielding zero non-Mute actions.) -/
theorem C5_scan_then_echo (s : MouseState) (hen : s.enabled = true)
    (entry : keymap_t) (hmem : entry ∈ keypad_keymap) :
    ∃ r1, ((process_events keypad_keymap 0 true s
        [⟨EV_MSC, MSC_SCAN, entry.scancode⟩, ⟨EV_KEY, entry.keycode, 1⟩]).2.map Prod.fst
        = [r1, MUTE_EVENT])
      ∧ (r1 = CHANGED_TO_MOUSE ∨ r1 = MUTE_EVENT)
      ∧ ((entry.keycode = KEY_UP ∨ entry.keycode = KEY_DOWN ∨ entry.keycode = KEY_LEFT
          ∨ entry.keycode = KEY_RIGHT) → r1 = CHANGED_TO_MOUSE) := by
  fin_cases hmem
  · refine ⟨CHANGED_TO_MOUSE, ?_, Or.inl rfl, fun h => rfl⟩
    simp [process_events, process_event, handle_input_event, mouse_handle_event,
      mouse_switch, route_event, keymap_get_keycode, keymap_get_scanvalue, keypad_keymap,
      hen, EV_KEY, EV_MSC, MSC_SCAN, KEY_HELP, KEY_F12, KEY_UP, KEY_DOWN, KEY_LEFT,
      KEY_RIGHT, KEY_MENU, KEY_SEND, KEY_ENTER, KEY_B, KEY_VOLUMEUP, KEY_VOLUMEDOWN,
      CHANGED_TO_MOUSE, MUTE_EVENT]
  · refine ⟨CHANGED_TO_MOUSE, ?_, Or.inl rfl, fun h => rfl⟩
    simp [process_events, process_event, handle_input_event, mouse_handle_event,
      mouse_switch, route_event, keymap_get_keycode, keymap_get_scanvalue, keypad_keymap,
      hen, EV_KEY, EV_MSC, MSC_SCAN, KEY_HELP, KEY_F12, KEY_UP, KEY_DOWN, KEY_LEFT,
      KEY_RIGHT, KEY_MENU, KEY_SEND, KEY_ENTER, KEY_B, KEY_VOLUMEUP, KEY_VOLUMEDOWN,
      CHANGED_TO_MOUSE, MUTE_EVENT]
  · refine ⟨CHANGED_TO_MOUSE, ?_, Or.inl rfl, fun h => rfl⟩
    simp [process_events, process_event, handle_input_event, mouse_handle_event,
      mouse_switch, route_event, keymap_get_keycode, keymap_get_scanvalue, keypad_keymap,
      hen, EV_KEY, EV_MSC, MSC_SCAN, KEY_HELP, KEY_F12, KEY_UP, KEY_DOWN, KEY_LEFT,
      KEY_RIGHT, KEY_MENU, KEY_SEND, KEY_ENTER, KEY_B, KEY_VOLUMEUP, KEY_VOLUMEDOWN,
      CHANGED_TO_MOUSE, MUTE_EVENT]
  · refine ⟨CHANGED_TO_MOUSE, ?_, Or.inl rfl, fun h => rfl⟩
    simp [process_events, process_event, handle_input_event, mouse_handle_event,
      mouse_switch, route_event, keymap_get_keycode, keymap_get_scanvalue, keypad_keymap,
      hen, EV_KEY, EV_MSC, MSC_SCAN, KEY_HELP, KEY_F12, KEY_UP, KEY_DOWN, KEY_LEFT,
      KEY_RIGHT, KEY_MENU, KEY_SEND, KEY_ENTER, KEY_B, KEY_VOLUMEUP, KEY_VOLUMEDOWN,
      CHANGED_TO_MOUSE, MUTE_EVENT]
  · by_cases hc : s.slowdown_counter % WHEEL_SLOWDOWN_FACTOR = 0
    · refine ⟨CHANGED_TO_MOUSE, ?_, Or.inl rfl, fun h => rfl⟩
      simp [process_events, process_event, handle_input_event, mouse_handle_event,
        mouse_switch, route_event, keymap_get_keycode, keymap_get_scanvalue, keypad_keymap,
        hen, hc, EV_KEY, EV_MSC, MSC_SCAN, KEY_HELP, KEY_F12, KEY_UP, KEY_DOWN, KEY_LEFT,
        KEY_RIGHT, KEY_MENU, KEY_SEND, KEY_ENTER, KEY_B, KEY_VOLUMEUP, KEY_VOLUMEDOWN,
        CHANGED_TO_MOUSE, MUTE_EVENT]
    · refine ⟨MUTE_EVENT, ?_, Or.inr rfl, ?_⟩
      · simp [process_events, process_event, handle_input_event, mouse_handle_event,
          mouse_switch, route_event, keymap_get_keycode, keymap_get_scanvalue, keypad_keymap,
          hen, hc, EV_KEY, EV_MSC, MSC_SCAN, KEY_HELP, KEY_F12, KEY_UP, KEY_DOWN, KEY_LEFT,
          KEY_RIGHT, KEY_MENU, KEY_SEND, KEY_ENTER, KEY_B, KEY_VOLUMEUP, KEY_VOLUMEDOWN,
          CHANGED_TO_MOUSE, MUTE_EVENT]
      · intro h
        rcases h with h | h | h | h <;> exact absurd h (by decide)
  · by_cases hc : s.slowdown_counter % WHEEL_SLOWDOWN_FACTOR = 0
    · refine ⟨CHANGED_TO_MOUSE, ?_, Or.inl rfl, fun h => rfl⟩
      simp [process_events, process_event, handle_input_event, mouse_handle_event,
        mouse_switch, route_event, keymap_get_keycode, keymap_get_scanvalue, keypad_keymap,
        hen, hc, EV_KEY, EV_MSC, MSC_SCAN, KEY_HELP, KEY_F12, KEY_UP, KEY_DOWN, KEY_LEFT,
        KEY_RIGHT, KEY_MENU, KEY_SEND, KEY_ENTER, KEY_B, KEY_VOLUMEUP, KEY_VOLUMEDOWN,
        CHANGED_TO_MOUSE, MUTE_EVENT]
    · refine ⟨MUTE_EVENT, ?_, Or.inr rfl, ?_⟩
      · simp [process_events, process_event, handle_input_event, mouse_handle_event,
          mouse_switch, route_event, keymap_get_keycode, keymap_get_scanvalue, keypad_keymap,
          hen, hc, EV_KEY, EV_MSC, MSC_SCAN, KEY_HELP, KEY_F12, KEY_UP, KEY_DOWN, KEY_LEFT,
          KEY_RIGHT, KEY_MENU, KEY_SEND, KEY_ENTER, KEY_B, KEY_VOLUMEUP, KEY_VOLUMEDOWN,
          CHANGED_TO_MOUSE, MUTE_EVENT]
      · intro h
        rcases h with h | h | h | h <;> exact absurd h (by decide)

/-- Claim C5, witness for the amended theorem: the scan form for scancode 35
(KEY_UP) followed by the KEY_UP echo at the concrete enabled state. -/
theorem C5_scan_then_echo_witness :
    ∃ r1, ((process_events keypad_keymap 0 true enabledInitState
        [⟨EV_MSC, MSC_SCAN, (⟨35, KEY_UP⟩ : keymap_t).scancode⟩,
         ⟨EV_KEY, (⟨35, KEY_UP⟩ : keymap_t).keycode, 1⟩]).2.map Prod.fst
        = [r1, MUTE_EVENT])
      ∧ (r1 = CHANGED_TO_MOUSE ∨ r1 = MUTE_EVENT)
      ∧ (((⟨35, KEY_UP⟩ : keymap_t).keycode = KEY_UP
          ∨ (⟨35, KEY_UP⟩ : keymap_t).keycode = KEY_DOWN
          ∨ (⟨35, KEY_UP⟩ : keymap_t).keycode = KEY_LEFT
          ∨ (⟨35, KEY_UP⟩ : keymap_t).keycode = KEY_RIGHT) → r1 = CHANGED_TO_MOUSE) :=
  C5_scan_then_echo enabledInitState rfl ⟨35, KEY_UP⟩ (by decide)

/-- Claim C6, counterexample.  The claim states that a PassThrough result
causes exactly two writes on the chosen sink.  For a CLAMSHELL press while
enabled the result is positive (PassThrough) but processing the event
performs four writes on the originating sink: the key-down/SYN pair
injected inside the handler plus the event/SYN pair written by the
router. -/
theorem C6_counterexample_four_writes :
    (0 < (process_event keypad_keymap 0 true enabledInitState ⟨EV_KEY, KEY_CLAMSHELL, 1⟩).2.1)
    ∧ ((process_event keypad_keymap 0 true enabledInitState
          ⟨EV_KEY, KEY_CLAMSHELL, 1⟩).2.2.length = 4) := by
  decide

/-- Claim C6, amended.  For every processed event: a MUTE_EVENT result
performs no write on any sink at all; a negative result (RouteToMouse)
performs exactly the two-write unit — the rewritten event immediately
followed by SYN_REPORT — on the mouse sink; a positive result (PassThrough)
performs exactly that two-write unit with the unmodified event on the
originating sink, except for the CLAMSHELL press path, where the
handler-injected key-down/SYN pair precedes it on the same sink (four
writes in total). -/
theorem C6_routing_amended (km : List keymap_t) (d : Nat) (snk : Bool)
    (s : MouseState) (ev : InputEvent) :
    ((process_event km d snk s ev).2.1 = MUTE_EVENT → (process_event km d snk s ev).2.2 = [])
    ∧ ((process_event km d snk s ev).2.1 < 0 →
        ∃ e, (process_event km d snk s ev).2.2 = [(Sink.mouse, e), (Sink.mouse, synReport)])
    ∧ (0 < (process_event km d snk s ev).2.1 →
        (process_event km d snk s ev).2.2
            = [(Sink.device d, ev), (Sink.device d, synReport)]
        ∨ (process_event km d snk s ev).2.2
            = [(Sink.device d, ⟨EV_KEY, KEY_CLAMSHELL, 1⟩), (Sink.device d, synReport),
               (Sink.device d, ev), (Sink.device d, synReport)]) := by
  have hshape := handler_shape km d snk s ev
  unfold RouterShape at hshape
  rw [process_event_result, process_event_writes]
  rcases hshape with ⟨hinj, hevp⟩ | ⟨hres, hev1, hinj⟩
  · refine ⟨?_, ?_, ?_⟩
    · intro h0
      rw [hinj, List.nil_append, route_event, if_neg, if_neg]
      · simp [MUTE_EVENT] at h0
        omega
      · simp [MUTE_EVENT] at h0
        omega
    · intro hneg
      refine ⟨(handle_input_event km d snk s ev).2.2.1, ?_⟩
      rw [hinj, List.nil_append, route_event, if_neg (by omega), if_pos hneg]
    · intro hpos
      left
      rw [hinj, List.nil_append, route_event, if_pos hpos, hevp hpos]
  · have hpos1 : (0 : Int) < (handle_input_event km d snk s ev).1 := by
      rw [hres]
      simp [PASS_THRU_EVENT]
    refine ⟨?_, ?_, ?_⟩
    · intro h0
      rw [h0] at hpos1
      simp [MUTE_EVENT] at hpos1
    · intro hneg
      omega
    · intro _
      right
      rw [hinj, route_event, if_pos hpos1, hev1]
      rfl

/-- Claim C6, witness for the amended theorem: a KEY_ENTER press while
enabled is routed to the mouse sink as a two-write unit. -/
theorem C6_routing_amended_witness :
    ∃ e, (process_event keypad_keymap 0 true enabledInitState ⟨EV_KEY, KEY_ENTER, 1⟩).2.2
        = [(Sink.mouse, e), (Sink.mouse, synReport)] :=
  (C6_routing_amended keypad_keymap 0 true enabledInitState ⟨EV_KEY, KEY_ENTER, 1⟩).2.1
    (by decide)

/-- Claim C7 (confirmed).  Discovery fails (the `devices_find_and_init`
result is nonzero) exactly when zero devices end up registered; when the
input directory opens, the registered devices are precisely the successful
candidates in order — so a single failing candidate never aborts discovery
of the others; and when zero devices register, `main` exits with status 1
without ever calling `mouse_init`, so the synthetic mouse device is never
created. -/
theorem C7_startup_requires_devices (dir_ok : Bool) (cands : List Candidate) (mok : Bool) :
    ((devices_find_and_init dir_ok cands).1 ≠ 0
      ↔ (devices_find_and_init dir_ok cands).2 = [])
    ∧ (devices_find_and_init true cands).2 = cands.filter candidate_registered
    ∧ ((devices_find_and_init dir_ok cands).2 = []
        → main_startup dir_ok cands mok = (1, false)) := by
  have hspec := devices_foldl_spec cands (-1) []
  have hchar_t : devices_find_and_init true cands
      = ((if cands.any candidate_registered then 0 else -1),
         cands.filter candidate_registered) := by
    simp [devices_find_and_init, hspec]
  have hiff : (devices_find_and_init dir_ok cands).1 ≠ 0
      ↔ (devices_find_and_init dir_ok cands).2 = [] := by
    cases dir_ok
    · simp [devices_find_and_init]
    · rw [hchar_t]
      by_cases hany : cands.any candidate_registered = true
      · obtain ⟨x, hx, hreg⟩ := List.any_eq_true.mp hany
        have hmemf : x ∈ cands.filter candidate_registered :=
          List.mem_filter.mpr ⟨hx, hreg⟩
        have hne : cands.filter candidate_registered ≠ [] := by
          intro hnil
          rw [hnil] at hmemf
          exact absurd hmemf (List.not_mem_nil x)
        simp [hany, hne]
      · have hf : cands.any candidate_registered = false := by
          cases hb : cands.any candidate_registered
          · rfl
          · exact absurd hb hany
        have hnil : cands.filter candidate_registered = [] :=
          List.filter_eq_nil_iff.mpr (List.any_eq_false.mp hf)
        simp [hf, hnil]
  refine ⟨hiff, by rw [hchar_t], ?_⟩
  intro hempty
  have h1 : (devices_find_and_init dir_ok cands).1 ≠ 0 := hiff.mpr hempty
  simp [main_startup, h1]

/-- Claim C7, witness: an empty candidate list — startup exits with status 1
and the mouse device is never created. -/
theorem C7_startup_requires_devices_witness :
    main_startup true [] true = (1, false) :=
  (C7_startup_requires_devices true [] true).2.2 (by decide)

/-- Claim C8 (confirmed).  Toggling mutates only the enabled flag: speed,
drag_mode and the scroll-throttle counter are unchanged, both in
`mouse_toggle` itself and across a full event-loop pass on a toggle-key
press; and no write performed while processing the toggle press carries the
left-button code, so disabling mouse mode while drag_mode is on emits no
left-button release and leaves drag_mode set. -/
theorem C8_toggle_mutates_only_enabled (km : List keymap_t) (d : Nat) (snk : Bool)
    (s : MouseState) :
    mouse_toggle s = (CHANGED_TO_MOUSE, {s with enabled := !s.enabled})
    ∧ process_event km d snk s ⟨EV_KEY, KEY_HELP, 1⟩
        = ({s with enabled := !s.enabled}, CHANGED_TO_MOUSE,
           [(Sink.mouse, ⟨EV_KEY, KEY_HELP, 1⟩), (Sink.mouse, synReport)])
    ∧ ((process_event km d snk s ⟨EV_KEY, KEY_HELP, 1⟩).2.2.all
        (fun w => w.2.code != BTN_LEFT)) = true := by
  refine ⟨rfl, ?_, ?_⟩ <;>
    simp [process_event, handle_input_event, mouse_toggle, route_event,
      CHANGED_TO_MOUSE, EV_KEY, KEY_HELP, KEY_F12, BTN_LEFT, synReport, EV_SYN, SYN_REPORT]

/-- Claim C9 (confirmed).  While enabled, a VOLUME_UP or VOLUME_DOWN key
event returns MUTE_EVENT for every value (press, release and autorepeat)
and performs no write on any sink; only a press (value 1) mutates the
speed. -/
theorem C9_volume_keys_always_mute (s : MouseState) (v : Int) (hen : s.enabled = true) :
    process_event keypad_keymap 0 true s ⟨EV_KEY, KEY_VOLUMEUP, v⟩
      = ((if v = 1 then {s with speed := s.speed + 1} else s), MUTE_EVENT, [])
    ∧ process_event keypad_keymap 0 true s ⟨EV_KEY, KEY_VOLUMEDOWN, v⟩
      = ((if v = 1 then
            {s with speed := if s.speed - 1 < MIN_MOUSE_SPEED then MIN_MOUSE_SPEED
                             else s.speed - 1}
          else s), MUTE_EVENT, []) :=
  ⟨volup_step s v hen, voldown_step s v hen⟩

/-- Claim C9, witness: autorepeat (value 2) of both volume keys at the
concrete enabled state — muted with no state change. -/
theorem C9_volume_keys_always_mute_witness :
    process_event keypad_keymap 0 true enabledInitState ⟨EV_KEY, KEY_VOLUMEUP, 2⟩
      = ((if (2 : Int) = 1 then {enabledInitState with speed := enabledInitState.speed + 1}
          else enabledInitState), MUTE_EVENT, [])
    ∧ process_event keypad_keymap 0 true enabledInitState ⟨EV_KEY, KEY_VOLUMEDOWN, 2⟩
      = ((if (2 : Int) = 1 then
            {enabledInitState with
              speed := if enabledInitState.speed - 1 < MIN_MOUSE_SPEED then MIN_MOUSE_SPEED
                       else enabledInitState.speed - 1}
          else enabledInitState), MUTE_EVENT, []) :=
  C9_volume_keys_always_mute enabledInitState 2 rfl

/-- Claim C10 (confirmed).  Speed has no upper bound: n volume-up presses
while enabled leave speed exactly at its starting value plus n (the model
uses exact integer arithmetic; the C `int` would differ only at machine
wraparound), each press returning MUTE_EVENT. -/
theorem C10_speed_unbounded (s : MouseState) (n : Nat) (hen : s.enabled = true) :
    (process_events keypad_keymap 0 true s
        (List.replicate n ⟨EV_KEY, KEY_VOLUMEUP, 1⟩)).1.speed = s.speed + n
    ∧ ∀ p ∈ (process_events keypad_keymap 0 true s
        (List.replicate n ⟨EV_KEY, KEY_VOLUMEUP, 1⟩)).2, p.1 = MUTE_EVENT ∧ p.2 = [] := by
  induction n generalizing s with
  | zero => simp [process_events]
  | succ k ih =>
    rw [List.replicate_succ]
    have hstep : process_event keypad_keymap 0 true s ⟨EV_KEY, KEY_VOLUMEUP, 1⟩
        = ({s with speed := s.speed + 1}, MUTE_EVENT, []) := by
      simpa using volup_step s 1 hen
    obtain ⟨ha, hb⟩ := ih {s with speed := s.speed + 1} (by simpa using hen)
    refine ⟨?_, ?_⟩
    · simp only [process_events, hstep]
      rw [ha]
      push_cast
      ring
    · simp only [process_events, hstep]
      intro p hp
      rcases List.mem_cons.mp hp with rfl | hp2
      · exact ⟨rfl, rfl⟩
      · exact hb p hp2

/-- Claim C10, witness: three volume-up presses from the initial speed 4
give speed 7, all muted. -/
theorem C10_speed_unbounded_witness :
    (process_events keypad_keymap 0 true enabledInitState
        (List.replicate 3 ⟨EV_KEY, KEY_VOLUMEUP, 1⟩)).1.speed = enabledInitState.speed + 3
    ∧ ∀ p ∈ (process_events keypad_keymap 0 true enabledInitState
        (List.replicate 3 ⟨EV_KEY, KEY_VOLUMEUP, 1⟩)).2, p.1 = MUTE_EVENT ∧ p.2 = [] :=
  C10_speed_unbounded enabledInitState 3 rfl

end FlipMouse
